import Mathlib

/-!
Verification development for the data-analyst workflow orchestrator
(`src/orchestrator_agent.py`).

The Python module defines a `WorkflowStep` string enum, a `WorkflowContext`
dataclass with dict (de)serialization, and an `OrchestratorAgent` whose
methods mutate `self.context : Optional[WorkflowContext]`.  The embedding
below passes that optional context explicitly: each mutating method becomes
a pure function `Option WorkflowContext → Option WorkflowContext`, and each
query method a pure function out of `Option WorkflowContext`.  Logging calls
in the source are I/O only and are not modelled.  Opaque Python dict payloads
(`shared_data`, tool-call `data`) are modelled as string key/value lists; the
orchestrator never inspects them.
-/

namespace DataAnalyst

/-- The `WorkflowStep` enum of `orchestrator_agent.py`: the five steps of the
data analysis workflow, each with a canonical string value. -/
inductive WorkflowStep where
  | BUILD_QUERY
  | VALIDATE_QUERY
  | EXECUTE_QUERY
  | VERIFY_RESULTS
  | FORMAT_RESULTS
deriving DecidableEq, BEq

/-- The string `.value` of each `WorkflowStep` member, as assigned in the
enum declaration. -/
def WorkflowStep.value : WorkflowStep → String
  | .BUILD_QUERY => "build_query"
  | .VALIDATE_QUERY => "validate_query"
  | .EXECUTE_QUERY => "execute_query"
  | .VERIFY_RESULTS => "verify_results"
  | .FORMAT_RESULTS => "format_results"

/-- The value-to-member lookup performed by the Python call
`WorkflowStep(s)`, which raises `ValueError` on an unknown string; the
failure is embedded as `none`. -/
def WorkflowStep.ofValue : String → Option WorkflowStep
  | "build_query" => some .BUILD_QUERY
  | "validate_query" => some .VALIDATE_QUERY
  | "execute_query" => some .EXECUTE_QUERY
  | "verify_results" => some .VERIFY_RESULTS
  | "format_results" => some .FORMAT_RESULTS
  | _ => none

/-- One recorded tool call: the dict `\x7bname, step, data\x7d` appended by
`OrchestratorAgent.add_tool_call`.  The `step` field holds the string value
of the step that was current at record time. -/
structure ToolCall where
  name : String
  step : String
  data : List (String × String)
deriving DecidableEq, BEq

/-- The `WorkflowContext` dataclass: context for one workflow session. -/
structure WorkflowContext where
  user_query : String
  current_step : WorkflowStep
  step_history : List WorkflowStep
  shared_data : List (String × String)
  tool_calls : List ToolCall
deriving DecidableEq, BEq

/-- The dictionary shape produced by `WorkflowContext.to_dict` and consumed
by `WorkflowContext.from_dict`.  `shared_data` and `tool_calls` are `Option`
because `from_dict` reads them with `dict.get` and a default, so a dict
missing those keys is still accepted. -/
structure ContextDict where
  user_query : String
  current_step : String
  step_history : List String
  shared_data : Option (List (String × String))
  tool_calls : Option (List ToolCall)
deriving DecidableEq

/-- `WorkflowContext.to_dict`: serialize to a dictionary; steps are emitted
as their string `.value`. -/
def WorkflowContext.to_dict (c : WorkflowContext) : ContextDict :=
  { user_query := c.user_query
    current_step := c.current_step.value
    step_history := c.step_history.map WorkflowStep.value
    shared_data := some c.shared_data
    tool_calls := some c.tool_calls }

/-- The list comprehension `[WorkflowStep(step) for step in data['step_history']]`
of `from_dict`: parse every entry, failing (Python: raising) on the first
unknown string. -/
def parse_steps : List String → Option (List WorkflowStep)
  | [] => some []
  | s :: rest => do
    let step ← WorkflowStep.ofValue s
    let others ← parse_steps rest
    pure (step :: others)

/-- `WorkflowContext.from_dict`: deserialize from a dictionary.  The Python
code calls `WorkflowStep(...)` on `current_step` and on every entry of
`step_history` (raising on unknown strings, hence `Option` here), and uses
`data.get` with defaults for `shared_data` and `tool_calls`. -/
def WorkflowContext.from_dict (d : ContextDict) : Option WorkflowContext := do
  let current ← WorkflowStep.ofValue d.current_step
  let hist ← parse_steps d.step_history
  pure { user_query := d.user_query
         current_step := current
         step_history := hist
         shared_data := d.shared_data.getD []
         tool_calls := d.tool_calls.getD [] }

/-- The text of `OrchestratorAgent._get_build_query_prompt`, an f-string over
`self.context.user_query`; transcribed line by line (apostrophes appear as
`\x27` escapes, double quotes as `\"`). -/
def _get_build_query_prompt (user_query : String) : String :=
  "You are a data analyst for RentReady system. User asked: \"" ++ user_query ++ ("\"\n" ++
  "\n" ++
  "CURRENT TASK: BUILD PRELIMINARY SQL QUERY (Step 1 of 4)\n" ++
  "\n" ++
  "You have access to MCP tools that can query the RentReady SQL Server database. The database contains:\n" ++
  "- Work orders (msdyn_workorder table) with dates, status, service accounts\n" ++
  "- Job profiles (rr_jobprofile table) linked to work orders  \n" ++
  "- Invoices (invoice table) with billing information\n" ++
  "- Accounts (account table) for properties and customers\n" ++
  "- Work order services (msdyn_workorderservice table) with service details\n" ++
  "\n" ++
  "YOUR TASK - BUILD THE QUERY NOW:\n" ++
  "1. Analyze the user\x27s question\n" ++
  "2. Determine which table(s) you need (work orders, invoices, job profiles, etc.)\n" ++
  "3. BUILD a preliminary SQL query using read_data or find_* MCP tools\n" ++
  "4. Include appropriate filters (dates, status, etc.)\n" ++
  "\n" ++
  "IMPORTANT RULES:\n" ++
  "- DO NOT ask the user for more information - you have enough to start\n" ++
  "- DO NOT wait - build the query NOW based on your understanding\n" ++
  "- Use your knowledge of the RentReady schema\n" ++
  "- This is preliminary - it will be tested and refined in the next step\n" ++
  "- If you\x27re not 100% sure, make your best guess and we\x27ll validate with samples\n" ++
  "\n" ++
  "EXAMPLE: If user asks \"How many work orders in September 2024?\", you should:\n" ++
  "- Use find_work_orders or read_data on msdyn_workorder table\n" ++
  "- Filter by date_from=\"2024-09-01\" and date_to=\"2024-09-30\"\n" ++
  "- Count the results\n" ++
  "\n" ++
  "NOW BUILD THE PRELIMINARY QUERY for the user\x27s question above. Show the query/tool call and explain your reasoning.\n")

/-- The text of `OrchestratorAgent._get_validate_query_prompt`. -/
def _get_validate_query_prompt (user_query : String) : String :=
  "You are a data analyst. User asked: \"" ++ user_query ++ ("\"\n" ++
  "\n" ++
  "CURRENT TASK: QUERY TESTING AND REFINEMENT (Step 2 of 4)\n" ++
  "\n" ++
  "You already built a preliminary SQL query. Now you need to TEST and REFINE it.\n" ++
  "\n" ++
  "Your task:\n" ++
  "1. TEST the query against REAL DATA SAMPLES (use LIMIT to get small samples)\n" ++
  "2. Analyze the sample results - do they make sense?\n" ++
  "3. Look at actual tables and fields if needed\n" ++
  "4. Refine the query based on what you learn from the samples\n" ++
  "5. This is an ITERATIVE process - test, analyze, refine, repeat\n" ++
  "\n" ++
  "IMPORTANT:\n" ++
  "- Use read_data, find_work_orders, find_invoices, etc. with LIMIT to get samples\n" ++
  "- Check if the data structure matches your assumptions\n" ++
  "- Verify field names, data types, and relationships\n" ++
  "- If the query doesn\x27t work, fix it and test again\n" ++
  "- Don\x27t proceed until you\x27re confident the query is correct\n" ++
  "\n" ++
  "This is where you explore the data through sampling to validate your query.\n")

/-- The text of `OrchestratorAgent._get_execute_query_prompt`. -/
def _get_execute_query_prompt (user_query : String) : String :=
  "You are a data analyst. User asked: \"" ++ user_query ++ ("\"\n" ++
  "\n" ++
  "CURRENT TASK: FULL QUERY EXECUTION (Step 3 of 4)\n" ++
  "\n" ++
  "You already built, tested, and refined the SQL query against real data samples.\n" ++
  "\n" ++
  "Your task:\n" ++
  "1. Execute the full SQL query using appropriate tools (read_data, find_* etc.)\n" ++
  "2. Get the complete results for the entire dataset\n" ++
  "3. Handle possible execution errors\n" ++
  "4. Ensure you get all the data needed to answer the user\x27s question\n" ++
  "\n" ++
  "The query has already been tested on samples, so it should work correctly.\n" ++
  "\n" ++
  "If errors occur during execution:\n" ++
  "- Analyze the cause (runtime error, wrong data, etc.)\n" ++
  "- Decide if you need to go back to query refinement or just retry\n" ++
  "\n" ++
  "After execution:\n" ++
  "- Show the results obtained\n" ++
  "- Report the number of rows and key statistics\n" ++
  "- Confirm you have all the data needed to answer the question\n")

/-- The text of `OrchestratorAgent._get_verify_results_prompt`. -/
def _get_verify_results_prompt (user_query : String) : String :=
  "You are a data analyst. User asked: \"" ++ user_query ++ ("\"\n" ++
  "\n" ++
  "CURRENT TASK: PROVIDE FINAL ANSWER (Final Step 4 of 4)\n" ++
  "\n" ++
  "You have completed the data analysis workflow. Now provide a clear, final answer to the user.\n" ++
  "\n" ++
  "Your task:\n" ++
  "1. **Review all the work done** - queries built, validated, and executed\n" ++
  "2. **Analyze the final results** and extract the key information\n" ++
  "3. **Provide a clear, direct answer** to the user\x27s question\n" ++
  "4. **Include specific numbers, dates, or data** from your analysis\n" ++
  "5. **Explain what the results mean** in business context\n" ++
  "6. **Highlight any important insights or patterns** you discovered\n" ++
  "\n" ++
  "**CRITICAL:** This is the final step. You must give the user a complete, actionable answer.\n" ++
  "\n" ++
  "**Format your response as:**\n" ++
  "- **Direct answer** to their question (e.g., \"There were 45 work orders completed in September 2025\")\n" ++
  "- **Supporting data** with specific numbers\n" ++
  "- **Business insights** or context\n" ++
  "- **Any caveats or limitations**\n" ++
  "\n" ++
  "**Available Tools:**\n" ++
  "- Use any tools needed to verify or clarify the results\n" ++
  "- You can re-run queries if needed for verification\n" ++
  "- Focus on providing the final answer to the user\x27s question\n" ++
  "\n" ++
  "**Remember:** The user is waiting for a clear, final answer. Make it actionable and insightful.\n")

/-- The text of `OrchestratorAgent._get_format_results_prompt` (code-fence
backticks appear as `\x60` escapes). -/
def _get_format_results_prompt (user_query : String) : String :=
  "You are a data analyst. User asked: \"" ++ user_query ++ ("\"\n" ++
  "\n" ++
  "CURRENT TASK: FORMAT FINAL REPORT (Final Step 5 of 5)\n" ++
  "\n" ++
  "You have completed the data analysis and verified the results. Now create a professional, formatted report for the user.\n" ++
  "\n" ++
  "Your task:\n" ++
  "1. **Create a comprehensive report** with clear sections\n" ++
  "2. **Format the data beautifully** using tables, charts, or structured text\n" ++
  "3. **Provide executive summary** with key findings\n" ++
  "4. **Include detailed analysis** with supporting data\n" ++
  "5. **Add business insights** and recommendations\n" ++
  "6. **Use professional formatting** with headers, bullet points, and clear structure\n" ++
  "\n" ++
  "**Report Structure:**\n" ++
  "\x60\x60\x60\n" ++
  "# 📊 Analysis Report: [User\x27s Question]\n" ++
  "\n" ++
  "## 🎯 Executive Summary\n" ++
  "- **Direct Answer:** [Clear answer to the question]\n" ++
  "- **Key Finding:** [Most important insight]\n" ++
  "- **Business Impact:** [What this means for the business]\n" ++
  "\n" ++
  "## 📈 Detailed Results\n" ++
  "[Formatted data tables, charts, or structured results]\n" ++
  "\n" ++
  "## 🔍 Analysis & Insights\n" ++
  "[Your interpretation of the data and what it means]\n" ++
  "\n" ++
  "## 💡 Recommendations\n" ++
  "[Any actionable insights or next steps]\n" ++
  "\n" ++
  "## 📋 Technical Details\n" ++
  "[Query used, data sources, limitations, etc.]\n" ++
  "\x60\x60\x60\n" ++
  "\n" ++
  "**Available Tools:**\n" ++
  "- Use any tools needed to get additional context or verify data\n" ++
  "- Focus on creating a professional, comprehensive report\n" ++
  "- Make it visually appealing and easy to understand\n" ++
  "\n" ++
  "**Remember:** This is the final deliverable. Make it professional, comprehensive, and actionable.\n")

/-- `OrchestratorAgent.get_current_step_prompt`: the sentinel when no
workflow is active, otherwise the `step_prompts` dictionary lookup with the
(unreachable, since the dictionary covers every enum member) default
`"Unknown step."`. -/
def get_current_step_prompt : Option WorkflowContext → String
  | none => "No active workflow."
  | some c =>
    let step_prompts : List (WorkflowStep × String) :=
      [(.BUILD_QUERY, _get_build_query_prompt c.user_query),
       (.VALIDATE_QUERY, _get_validate_query_prompt c.user_query),
       (.EXECUTE_QUERY, _get_execute_query_prompt c.user_query),
       (.VERIFY_RESULTS, _get_verify_results_prompt c.user_query),
       (.FORMAT_RESULTS, _get_format_results_prompt c.user_query)]
    (step_prompts.lookup c.current_step).getD "Unknown step."

/-- `OrchestratorAgent.start_workflow`: start a new workflow, replacing any
existing context. -/
def start_workflow (user_query : String) : Option WorkflowContext :=
  some { user_query := user_query
         current_step := .BUILD_QUERY
         step_history := []
         shared_data := []
         tool_calls := [] }

/-- `OrchestratorAgent.add_tool_call`: append a tool call tagged with the
current step's value; no-op when there is no context.  The Python default
argument `tool_data=None` and the expression `tool_data or \x7b\x7d` are
modelled by an `Option` payload read with a `[]` default. -/
def add_tool_call (tool_name : String) (tool_data : Option (List (String × String))) :
    Option WorkflowContext → Option WorkflowContext
  | none => none
  | some c =>
    some { c with
           tool_calls := c.tool_calls ++
             [{ name := tool_name, step := c.current_step.value, data := tool_data.getD [] }] }

/-- `OrchestratorAgent.analyze_and_decide_next`: analyze the current step and
decide what to do next, as a decision string.  Mirrors the if/elif chain of
the source, including the final unreachable `retry_current` return. -/
def analyze_and_decide_next : Option WorkflowContext → String
  | none => "no_workflow"
  | some c =>
    let current_step := c.current_step
    let tool_calls := c.tool_calls
    let current_step_tools := tool_calls.filter (fun tc => tc.step == current_step.value)
    if current_step = .BUILD_QUERY then
      if current_step_tools.length > 0 then "move_to_validate" else "retry_current"
    else if current_step = .VALIDATE_QUERY then
      if current_step_tools.length > 0 then "move_to_execute" else "retry_current"
    else if current_step = .EXECUTE_QUERY then
      if current_step_tools.length > 0 then "move_to_verify" else "retry_current"
    else if current_step = .VERIFY_RESULTS then
      if tool_calls.length > 0 then "move_to_format"
      else if c.step_history.length ≥ 3 then "move_to_format"
      else "retry_current"
    else if current_step = .FORMAT_RESULTS then
      if tool_calls.length > 0 then "workflow_complete"
      else if c.step_history.length ≥ 4 then "workflow_complete"
      else "retry_current"
    else "retry_current"

/-- `OrchestratorAgent.move_to_next_step`: apply a decision string.  Each of
the five recognized `move_to_*` branches appends the current step to
`step_history` and installs the named step; `workflow_complete`,
`retry_current`, and any unrecognized decision only log (here: change
nothing); with no context the method returns immediately. -/
def move_to_next_step (decision : String) : Option WorkflowContext → Option WorkflowContext
  | none => none
  | some c =>
    if decision = "move_to_validate" then
      some { c with step_history := c.step_history ++ [c.current_step]
                    current_step := .VALIDATE_QUERY }
    else if decision = "move_to_execute" then
      some { c with step_history := c.step_history ++ [c.current_step]
                    current_step := .EXECUTE_QUERY }
    else if decision = "move_to_verify" then
      some { c with step_history := c.step_history ++ [c.current_step]
                    current_step := .VERIFY_RESULTS }
    else if decision = "move_to_format" then
      some { c with step_history := c.step_history ++ [c.current_step]
                    current_step := .FORMAT_RESULTS }
    else if decision = "move_to_build_query" then
      some { c with step_history := c.step_history ++ [c.current_step]
                    current_step := .BUILD_QUERY }
    else some c

/-- `OrchestratorAgent.is_workflow_complete`: `self.context is None or
len(self.context.step_history) >= 4`. -/
def is_workflow_complete : Option WorkflowContext → Bool
  | none => true
  | some c => decide (c.step_history.length ≥ 4)

/-- The status dictionary returned by `OrchestratorAgent.get_workflow_status`;
fields other than `status` are absent (`none`) in the no-workflow dict. -/
structure WorkflowStatus where
  status : String
  current_step : Option String
  step_history : Option (List String)
  total_tool_calls : Option Nat
  is_complete : Option Bool
deriving DecidableEq

/-- `OrchestratorAgent.get_workflow_status`: read-only snapshot of the
current workflow state. -/
def get_workflow_status : Option WorkflowContext → WorkflowStatus
  | none =>
    { status := "no_workflow"
      current_step := none
      step_history := none
      total_tool_calls := none
      is_complete := none }
  | some c =>
    { status := "active"
      current_step := some c.current_step.value
      step_history := some (c.step_history.map WorkflowStep.value)
      total_tool_calls := some c.tool_calls.length
      is_complete := some (is_workflow_complete (some c)) }

/-- The five decision strings for which `move_to_next_step` performs a phase
transition (appending to `step_history` and installing a new step), read off
the branches of its if/elif chain. -/
def advance_decisions : List String :=
  ["move_to_validate", "move_to_execute", "move_to_verify",
   "move_to_format", "move_to_build_query"]

/-- Every decision string mentioned by a branch of `move_to_next_step`
(the five transitions plus `workflow_complete` and `retry_current`). -/
def recognized_decisions : List String :=
  advance_decisions ++ ["workflow_complete", "retry_current"]

/-- One state-mutating orchestrator operation on an active context:
`add_tool_call` or `move_to_next_step`.  The query methods
(`get_current_step_prompt`, `analyze_and_decide_next`,
`is_workflow_complete`, `get_workflow_status`) are pure and never mutate, so
they need no constructor here. -/
inductive OrchestratorOp where
  | record (tool_name : String) (tool_data : Option (List (String × String)))
  | apply (decision : String)
deriving DecidableEq

/-- Apply one mutating operation to the orchestrator's optional context. -/
def apply_op : OrchestratorOp → Option WorkflowContext → Option WorkflowContext
  | .record n d, ctx => add_tool_call n d ctx
  | .apply dec, ctx => move_to_next_step dec ctx

/-- Run a sequence of mutating operations left to right. -/
def run_ops : List OrchestratorOp → Option WorkflowContext → Option WorkflowContext
  | [], ctx => ctx
  | op :: ops, ctx => run_ops ops (apply_op op ctx)

/-- The length of `step_history`, with 0 for an absent context. -/
def hist_len : Option WorkflowContext → Nat
  | none => 0
  | some c => c.step_history.length

/-! Helper lemmas shared by several theorems below. -/

/-- Looking a step's string value back up yields that step. -/
theorem WorkflowStep.ofValue_value (s : WorkflowStep) :
    WorkflowStep.ofValue s.value = some s := by
  cases s <;> rfl

/-- Mapping steps to their values and parsing them back is the identity. -/
theorem parse_steps_map_value (l : List WorkflowStep) :
    parse_steps (l.map WorkflowStep.value) = some l := by
  induction l with
  | nil => rfl
  | cons a l ih =>
    simp [parse_steps, WorkflowStep.ofValue_value, ih]

/-- A three-part string append whose first part is nonempty is nonempty. -/
theorem append3_ne_empty (a q t : String) (h : a.length ≠ 0) : a ++ q ++ t ≠ "" := by
  intro hc
  apply h
  have hl := congrArg String.length hc
  rw [String.length_append, String.length_append] at hl
  have hz : ("" : String).length = 0 := rfl
  omega

/-- C8: with no active context every operation returns its documented
fallback without touching any state: `add_tool_call` is a no-op (the context
stays `none`), `get_current_step_prompt` returns the sentinel
`"No active workflow."`, `analyze_and_decide_next` returns `"no_workflow"`,
and `get_workflow_status` returns the status dict whose only entry is
`status = "no_workflow"`. -/
theorem claim_C8_no_context_fallbacks :
    (∀ n d, add_tool_call n d none = none) ∧
    get_current_step_prompt none = "No active workflow." ∧
    analyze_and_decide_next none = "no_workflow" ∧
    get_workflow_status none =
      { status := "no_workflow", current_step := none, step_history := none,
        total_tool_calls := none, is_complete := none } :=
  ⟨fun _ _ => rfl, rfl, rfl, rfl⟩

/-- C10: after `start_workflow q`, four consecutive
`move_to_next_step "move_to_build_query"` calls each append `BUILD_QUERY`
to `step_history` while leaving `current_step` at `BUILD_QUERY`; after the
fourth call `is_workflow_complete` is `true`, although neither
`current_step` nor any `step_history` entry is `VERIFY_RESULTS`. -/
theorem claim_C10_complete_without_verify (q : String) :
    move_to_next_step "move_to_build_query" (start_workflow q) =
      some { user_query := q, current_step := .BUILD_QUERY,
             step_history := [.BUILD_QUERY], shared_data := [], tool_calls := [] } ∧
    move_to_next_step "move_to_build_query" (move_to_next_step "move_to_build_query"
        (start_workflow q)) =
      some { user_query := q, current_step := .BUILD_QUERY,
             step_history := [.BUILD_QUERY, .BUILD_QUERY],
             shared_data := [], tool_calls := [] } ∧
    move_to_next_step "move_to_build_query" (move_to_next_step "move_to_build_query"
        (move_to_next_step "move_to_build_query" (start_workflow q))) =
      some { user_query := q, current_step := .BUILD_QUERY,
             step_history := [.BUILD_QUERY, .BUILD_QUERY, .BUILD_QUERY],
             shared_data := [], tool_calls := [] } ∧
    move_to_next_step "move_to_build_query" (move_to_next_step "move_to_build_query"
        (move_to_next_step "move_to_build_query" (move_to_next_step "move_to_build_query"
          (start_workflow q)))) =
      some { user_query := q, current_step := .BUILD_QUERY,
             step_history := [.BUILD_QUERY, .BUILD_QUERY, .BUILD_QUERY, .BUILD_QUERY],
             shared_data := [], tool_calls := [] } ∧
    is_workflow_complete (move_to_next_step "move_to_build_query"
        (move_to_next_step "move_to_build_query" (move_to_next_step "move_to_build_query"
          (move_to_next_step "move_to_build_query" (start_workflow q))))) = true ∧
    WorkflowStep.BUILD_QUERY ≠ WorkflowStep.VERIFY_RESULTS ∧
    WorkflowStep.VERIFY_RESULTS ∉
      ([.BUILD_QUERY, .BUILD_QUERY, .BUILD_QUERY, .BUILD_QUERY] : List WorkflowStep) :=
  ⟨rfl, rfl, rfl, rfl, rfl, by decide, by simp⟩

/-- C6: serializing a `WorkflowContext` and deserializing it yields the
original context, and the serialized form carries `current_step` and every
`step_history` entry as the step's canonical string value, not an ordinal. -/
theorem claim_C6_roundtrip (c : WorkflowContext) :
    WorkflowContext.from_dict (WorkflowContext.to_dict c) = some c ∧
    (WorkflowContext.to_dict c).current_step = c.current_step.value ∧
    (WorkflowContext.to_dict c).step_history = c.step_history.map WorkflowStep.value := by
  refine ⟨?_, rfl, rfl⟩
  obtain ⟨q, step, hist, sd, tcs⟩ := c
  simp [WorkflowContext.to_dict, WorkflowContext.from_dict,
        WorkflowStep.ofValue_value, parse_steps_map_value]

/-- C2 counterexample: on the fresh context of `start_workflow "q"`, applying
the decision `"move_to_validate"` twice in a row does not leave the state at
its value after the first call — the second call appends to `step_history`
again, so the claim that the two states are equal is false. -/
theorem claim_C2_counterexample :
    move_to_next_step "move_to_validate"
        (move_to_next_step "move_to_validate" (start_workflow "q")) ≠
      move_to_next_step "move_to_validate" (start_workflow "q") := by
  decide

/-- C2 amended: applying the same transition decision twice in a row leaves
`current_step` where the first call put it, but appends to `step_history` a
second time — the state after the second call is the state after the first
with one more history entry (the repeated step), not the same state. -/
theorem claim_C2_amended_double_append (c : WorkflowContext) (d : String)
    (hd : d ∈ advance_decisions) :
    ∃ c₁, move_to_next_step d (some c) = some c₁ ∧
      move_to_next_step d (some c₁) =
        some { c₁ with step_history := c₁.step_history ++ [c₁.current_step] } := by
  simp only [advance_decisions, List.mem_cons, List.mem_singleton,
             List.not_mem_nil, or_false] at hd
  rcases hd with rfl | rfl | rfl | rfl | rfl <;> exact ⟨_, rfl, rfl⟩

/-- C2 witness: the amended statement evaluated on the fresh context of
`start_workflow "w"` and the decision `"move_to_validate"`. -/
theorem claim_C2_witness :
    ∃ c₁, move_to_next_step "move_to_validate"
        (some { user_query := "w", current_step := .BUILD_QUERY, step_history := [],
                shared_data := [], tool_calls := [] }) = some c₁ ∧
      move_to_next_step "move_to_validate" (some c₁) =
        some { c₁ with step_history := c₁.step_history ++ [c₁.current_step] } :=
  claim_C2_amended_double_append _ "move_to_validate" (by decide)

/-- C4 counterexample: `move_to_next_step` called with the unrecognized
decision string `"bogus_decision"` does not fail: it falls through every
branch and silently leaves the state unchanged, refuting the claim that an
unrecognized tag fails loudly rather than being silently ignored.  (The
Python method contains no assertion or raise at all; the embedding is the
total function it computes.) -/
theorem claim_C4_counterexample :
    move_to_next_step "bogus_decision" (start_workflow "q") = start_workflow "q" := by
  decide

/-- C4 amended: a decision string outside the recognized set is silently
ignored — `move_to_next_step` returns the state unchanged and signals
nothing. -/
theorem claim_C4_amended_silent_ignore (ctx : Option WorkflowContext) (d : String)
    (hd : d ∉ recognized_decisions) :
    move_to_next_step d ctx = ctx := by
  simp only [recognized_decisions, advance_decisions, List.append_assoc,
             List.cons_append, List.nil_append, List.mem_cons,
             List.not_mem_nil, or_false, not_or] at hd
  obtain ⟨h1, h2, h3, h4, h5, h6, h7⟩ := hd
  cases ctx with
  | none => rfl
  | some c => simp [move_to_next_step, h1, h2, h3, h4, h5]

/-- C4 witness: the amended statement evaluated on the unrecognized tag
`"unknown_tag"` and the fresh context of `start_workflow "hi"`. -/
theorem claim_C4_witness :
    move_to_next_step "unknown_tag" (start_workflow "hi") = start_workflow "hi" :=
  claim_C4_amended_silent_ignore _ "unknown_tag" (by decide)

/-- A state in which the workflow counts as complete although the session
never entered `VERIFY_RESULTS`: four `"move_to_validate"` transitions in a
row from a fresh context. -/
def c3_counterexample_state : Option WorkflowContext :=
  move_to_next_step "move_to_validate" (move_to_next_step "move_to_validate"
    (move_to_next_step "move_to_validate" (move_to_next_step "move_to_validate"
      (start_workflow "q"))))

/-- C3 counterexample: a reachable state (four consecutive
`"move_to_validate"` applications after `start_workflow "q"`) in which
`is_workflow_complete` is `true` with `step_history` of length 4, yet the
session never transitioned through `VERIFY_RESULTS` — neither
`current_step` nor any `step_history` entry is `VERIFY_RESULTS` — refuting
the claimed equivalence with having passed through every phase up to and
including verification. -/
theorem claim_C3_counterexample :
    is_workflow_complete c3_counterexample_state = true ∧
    c3_counterexample_state =
      some { user_query := "q", current_step := .VALIDATE_QUERY,
             step_history := [.BUILD_QUERY, .VALIDATE_QUERY, .VALIDATE_QUERY,
                              .VALIDATE_QUERY],
             shared_data := [], tool_calls := [] } ∧
    WorkflowStep.VALIDATE_QUERY ≠ WorkflowStep.VERIFY_RESULTS ∧
    WorkflowStep.VERIFY_RESULTS ∉
      ([.BUILD_QUERY, .VALIDATE_QUERY, .VALIDATE_QUERY, .VALIDATE_QUERY] :
        List WorkflowStep) :=
  ⟨rfl, rfl, by decide, by simp⟩

/-- C3 amended: `is_workflow_complete` is `true` exactly when no context
exists or `step_history` has reached length 4; this characterization holds
of every state whatsoever (hence regardless of which decide/apply sequence
produced it), but it is *not* equivalent to having transitioned through
every phase up to and including `VERIFY_RESULTS`. -/
theorem claim_C3_amended_complete_iff (ctx : Option WorkflowContext) :
    is_workflow_complete ctx = true ↔
      (ctx = none ∨ ∃ c, ctx = some c ∧ 4 ≤ c.step_history.length) := by
  cases ctx with
  | none => simp [is_workflow_complete]
  | some c => simp [is_workflow_complete]

/-- C3 witness: the amended characterization evaluated at the absent
context. -/
theorem claim_C3_witness : is_workflow_complete none = true :=
  (claim_C3_amended_complete_iff none).mpr (Or.inl rfl)

/-- An active context in `VERIFY_RESULTS` whose only recorded tool call is
tagged with `build_query`, not with the current step. -/
def c1_counterexample_context : WorkflowContext :=
  { user_query := "q", current_step := .VERIFY_RESULTS, step_history := [],
    shared_data := [],
    tool_calls := [{ name := "read_data", step := "build_query", data := [] }] }

/-- C1 counterexample: in a context whose current step is the non-terminal
`VERIFY_RESULTS` and which has no tool call tagged with the current step,
`analyze_and_decide_next` does not return `"retry_current"` as the claim
requires — it returns `"move_to_format"`, because the `VERIFY_RESULTS`
branch advances on *any* recorded tool call (or a step history of length at
least 3), not on tool calls of the current step. -/
theorem claim_C1_counterexample :
    c1_counterexample_context.tool_calls.filter
        (fun tc => tc.step == c1_counterexample_context.current_step.value) = [] ∧
    analyze_and_decide_next (some c1_counterexample_context) = "move_to_format" ∧
    "move_to_format" ≠ "retry_current" :=
  ⟨rfl, rfl, by decide⟩

/-- C1 amended: for an active context in `BUILD_QUERY`, `VALIDATE_QUERY` or
`EXECUTE_QUERY`, `analyze_and_decide_next` returns the advance decision to
that step's successor exactly when at least one recorded tool call is tagged
with the current step, and `"retry_current"` otherwise; for
`VERIFY_RESULTS` it instead returns `"move_to_format"` exactly when the
session has at least one tool call of *any* step or `step_history` has at
least 3 entries, and `"retry_current"` otherwise. -/
theorem claim_C1_amended_decision_rule (c : WorkflowContext) :
    (c.current_step = .BUILD_QUERY →
      analyze_and_decide_next (some c) =
        if 0 < (c.tool_calls.filter
            (fun tc => tc.step == c.current_step.value)).length
        then "move_to_validate" else "retry_current") ∧
    (c.current_step = .VALIDATE_QUERY →
      analyze_and_decide_next (some c) =
        if 0 < (c.tool_calls.filter
            (fun tc => tc.step == c.current_step.value)).length
        then "move_to_execute" else "retry_current") ∧
    (c.current_step = .EXECUTE_QUERY →
      analyze_and_decide_next (some c) =
        if 0 < (c.tool_calls.filter
            (fun tc => tc.step == c.current_step.value)).length
        then "move_to_verify" else "retry_current") ∧
    (c.current_step = .VERIFY_RESULTS →
      analyze_and_decide_next (some c) =
        if 0 < c.tool_calls.length ∨ 3 ≤ c.step_history.length
        then "move_to_format" else "retry_current") := by
  refine ⟨?_, ?_, ?_, ?_⟩ <;> intro h
  · simp [analyze_and_decide_next, h, WorkflowStep.value]
  · simp [analyze_and_decide_next, h, WorkflowStep.value]
  · simp [analyze_and_decide_next, h, WorkflowStep.value]
  · by_cases h1 : 0 < c.tool_calls.length
    · simp [analyze_and_decide_next, h, h1]
    · by_cases h2 : 3 ≤ c.step_history.length
      · simp [analyze_and_decide_next, h, h1, h2]
      · simp [analyze_and_decide_next, h, h1, h2]

/-- C1 witness: the amended rule evaluated on a `BUILD_QUERY` context with
one tool call tagged `build_query`. -/
theorem claim_C1_witness :
    analyze_and_decide_next
        (some { user_query := "w", current_step := .BUILD_QUERY, step_history := [],
                shared_data := [],
                tool_calls := [{ name := "t", step := "build_query", data := [] }] }) =
      "move_to_validate" :=
  ((claim_C1_amended_decision_rule _).1 rfl).trans (by decide)

/-- A `VERIFY_RESULTS` context with no tool calls whose `step_history`
already has 3 entries. -/
def c5_context_a : WorkflowContext :=
  { user_query := "q", current_step := .VERIFY_RESULTS,
    step_history := [.BUILD_QUERY, .VALIDATE_QUERY, .EXECUTE_QUERY],
    shared_data := [], tool_calls := [] }

/-- A `VERIFY_RESULTS` context with no tool calls and an empty
`step_history`. -/
def c5_context_b : WorkflowContext :=
  { user_query := "q", current_step := .VERIFY_RESULTS, step_history := [],
    shared_data := [], tool_calls := [] }

/-- C5 counterexample: two active contexts agreeing on `current_step`
(`VERIFY_RESULTS`) and on the (empty) multiset of tool-call step tags, on
which `analyze_and_decide_next` nevertheless differs — the decision also
depends on the length of `step_history`. -/
theorem claim_C5_counterexample :
    c5_context_a.current_step = c5_context_b.current_step ∧
    c5_context_a.tool_calls.map ToolCall.step =
      c5_context_b.tool_calls.map ToolCall.step ∧
    analyze_and_decide_next (some c5_context_a) ≠
      analyze_and_decide_next (some c5_context_b) :=
  ⟨rfl, rfl, by decide⟩

/-- C5 amended: the decision of `analyze_and_decide_next` is a function of
`current_step`, the multiset of step tags on the recorded tool calls, and
the *length of `step_history`* alone: any two active contexts agreeing on
those three agree on the decision, whatever their other fields. -/
theorem claim_C5_amended_determinism (c₁ c₂ : WorkflowContext)
    (hstep : c₁.current_step = c₂.current_step)
    (hperm : (c₁.tool_calls.map ToolCall.step).Perm
      (c₂.tool_calls.map ToolCall.step))
    (hhist : c₁.step_history.length = c₂.step_history.length) :
    analyze_and_decide_next (some c₁) = analyze_and_decide_next (some c₂) := by
  have hlen : c₁.tool_calls.length = c₂.tool_calls.length := by
    have h := hperm.length_eq
    simpa using h
  have hcount : ∀ v : String,
      (c₁.tool_calls.filter (fun tc => tc.step == v)).length =
        (c₂.tool_calls.filter (fun tc => tc.step == v)).length := by
    intro v
    have h := List.Perm.countP_eq (fun s => s == v) hperm
    rw [List.countP_map, List.countP_map,
        List.countP_eq_length_filter, List.countP_eq_length_filter] at h
    exact h
  obtain ⟨q₁, s₁, h₁, d₁, t₁⟩ := c₁
  obtain ⟨q₂, s₂, h₂, d₂, t₂⟩ := c₂
  dsimp at hstep hhist hcount hlen
  subst hstep
  cases s₁ with
  | BUILD_QUERY =>
    show (if 0 < (t₁.filter (fun tc => tc.step == "build_query")).length
          then "move_to_validate" else "retry_current") =
        (if 0 < (t₂.filter (fun tc => tc.step == "build_query")).length
          then "move_to_validate" else "retry_current")
    rw [hcount "build_query"]
  | VALIDATE_QUERY =>
    show (if 0 < (t₁.filter (fun tc => tc.step == "validate_query")).length
          then "move_to_execute" else "retry_current") =
        (if 0 < (t₂.filter (fun tc => tc.step == "validate_query")).length
          then "move_to_execute" else "retry_current")
    rw [hcount "validate_query"]
  | EXECUTE_QUERY =>
    show (if 0 < (t₁.filter (fun tc => tc.step == "execute_query")).length
          then "move_to_verify" else "retry_current") =
        (if 0 < (t₂.filter (fun tc => tc.step == "execute_query")).length
          then "move_to_verify" else "retry_current")
    rw [hcount "execute_query"]
  | VERIFY_RESULTS =>
    show (if 0 < t₁.length then "move_to_format"
          else if 3 ≤ h₁.length then "move_to_format" else "retry_current") =
        (if 0 < t₂.length then "move_to_format"
          else if 3 ≤ h₂.length then "move_to_format" else "retry_current")
    rw [hlen, hhist]
  | FORMAT_RESULTS =>
    show (if 0 < t₁.length then "workflow_complete"
          else if 4 ≤ h₁.length then "workflow_complete" else "retry_current") =
        (if 0 < t₂.length then "workflow_complete"
          else if 4 ≤ h₂.length then "workflow_complete" else "retry_current")
    rw [hlen, hhist]

/-- Context with two tool calls tagged `build_query` then `validate_query`. -/
def c5_witness_a : WorkflowContext :=
  { user_query := "w", current_step := .BUILD_QUERY, step_history := [],
    shared_data := [],
    tool_calls := [{ name := "t1", step := "build_query", data := [] },
                   { name := "t2", step := "validate_query", data := [] }] }

/-- Context with the same tag multiset in the opposite order, different
names, payloads and scratch data. -/
def c5_witness_b : WorkflowContext :=
  { user_query := "w", current_step := .BUILD_QUERY, step_history := [],
    shared_data := [("note", "x")],
    tool_calls := [{ name := "u1", step := "validate_query", data := [("k", "v")] },
                   { name := "u2", step := "build_query", data := [] }] }

/-- C5 witness: the amended determinism applied to two concrete contexts
with permuted tool-call tags. -/
theorem claim_C5_witness :
    analyze_and_decide_next (some c5_witness_a) =
      analyze_and_decide_next (some c5_witness_b) :=
  claim_C5_amended_determinism _ _ rfl (by decide) rfl

/-- Recording a tool call never touches `step_history`. -/
theorem hist_len_add_tool_call (n : String) (d : Option (List (String × String)))
    (ctx : Option WorkflowContext) :
    hist_len (add_tool_call n d ctx) = hist_len ctx := by
  cases ctx <;> rfl

/-- Applying any decision never shrinks `step_history`. -/
theorem hist_len_move_le (dec : String) (ctx : Option WorkflowContext) :
    hist_len ctx ≤ hist_len (move_to_next_step dec ctx) := by
  cases ctx with
  | none => exact Nat.le_refl _
  | some c =>
    simp only [move_to_next_step]
    split_ifs <;> simp [hist_len]

/-- No single mutating operation shrinks `step_history`. -/
theorem hist_len_apply_op_le (op : OrchestratorOp) (ctx : Option WorkflowContext) :
    hist_len ctx ≤ hist_len (apply_op op ctx) := by
  cases op with
  | record n d => exact Nat.le_of_eq (hist_len_add_tool_call n d ctx).symm
  | apply dec => exact hist_len_move_le dec ctx

/-- No sequence of mutating operations shrinks `step_history`. -/
theorem hist_len_run_ops_le (ops : List OrchestratorOp) (ctx : Option WorkflowContext) :
    hist_len ctx ≤ hist_len (run_ops ops ctx) := by
  induction ops generalizing ctx with
  | nil => exact Nat.le_refl _
  | cons op ops ih =>
    exact Nat.le_trans (hist_len_apply_op_le op ctx) (ih (apply_op op ctx))

/-- C7: over any sequence of mutating orchestrator operations the length of
`step_history` never decreases; on an active context, `move_to_next_step`
with any of the five transition decisions increases it by exactly one, and
the retry and terminal decisions leave the state (hence the history)
unchanged. -/
theorem claim_C7_history_monotone (ctx : Option WorkflowContext) :
    (∀ ops : List OrchestratorOp, hist_len ctx ≤ hist_len (run_ops ops ctx)) ∧
    (∀ d c, ctx = some c → d ∈ advance_decisions →
      hist_len (move_to_next_step d ctx) = hist_len ctx + 1) ∧
    (∀ d, d = "retry_current" ∨ d = "workflow_complete" →
      move_to_next_step d ctx = ctx) := by
  refine ⟨fun ops => hist_len_run_ops_le ops ctx, ?_, ?_⟩
  · intro d c hc hd
    subst hc
    simp only [advance_decisions, List.mem_cons, List.mem_singleton,
               List.not_mem_nil, or_false] at hd
    rcases hd with rfl | rfl | rfl | rfl | rfl <;> simp [move_to_next_step, hist_len]
  · intro d hd
    rcases hd with rfl | rfl <;> cases ctx <;> rfl

/-- C7 witness: a transition decision on a fresh context grows the history
by exactly one entry. -/
theorem claim_C7_witness :
    hist_len (move_to_next_step "move_to_verify" (start_workflow "w7")) =
      hist_len (start_workflow "w7") + 1 :=
  (claim_C7_history_monotone (start_workflow "w7")).2.1 "move_to_verify" _ rfl (by decide)

/-- The build-query prompt contains the user query verbatim. -/
theorem build_prompt_decomp (q : String) :
    ∃ s t, _get_build_query_prompt q = s ++ q ++ t :=
  ⟨_, _, rfl⟩

/-- The build-query prompt is nonempty. -/
theorem build_prompt_ne (q : String) : _get_build_query_prompt q ≠ "" := by
  unfold _get_build_query_prompt
  exact append3_ne_empty _ _ _ (by decide)

/-- The validate-query prompt contains the user query verbatim. -/
theorem validate_prompt_decomp (q : String) :
    ∃ s t, _get_validate_query_prompt q = s ++ q ++ t :=
  ⟨_, _, rfl⟩

/-- The validate-query prompt is nonempty. -/
theorem validate_prompt_ne (q : String) : _get_validate_query_prompt q ≠ "" := by
  unfold _get_validate_query_prompt
  exact append3_ne_empty _ _ _ (by decide)

/-- The execute-query prompt contains the user query verbatim. -/
theorem execute_prompt_decomp (q : String) :
    ∃ s t, _get_execute_query_prompt q = s ++ q ++ t :=
  ⟨_, _, rfl⟩

/-- The execute-query prompt is nonempty. -/
theorem execute_prompt_ne (q : String) : _get_execute_query_prompt q ≠ "" := by
  unfold _get_execute_query_prompt
  exact append3_ne_empty _ _ _ (by decide)

/-- The verify-results prompt contains the user query verbatim. -/
theorem verify_prompt_decomp (q : String) :
    ∃ s t, _get_verify_results_prompt q = s ++ q ++ t :=
  ⟨_, _, rfl⟩

/-- The verify-results prompt is nonempty. -/
theorem verify_prompt_ne (q : String) : _get_verify_results_prompt q ≠ "" := by
  unfold _get_verify_results_prompt
  exact append3_ne_empty _ _ _ (by decide)

/-- The format-results prompt contains the user query verbatim. -/
theorem format_prompt_decomp (q : String) :
    ∃ s t, _get_format_results_prompt q = s ++ q ++ t :=
  ⟨_, _, rfl⟩

/-- The format-results prompt is nonempty. -/
theorem format_prompt_ne (q : String) : _get_format_results_prompt q ≠ "" := by
  unfold _get_format_results_prompt
  exact append3_ne_empty _ _ _ (by decide)

/-- C9: in every active context the prompt for the current step is a
defined, non-empty string containing the user query verbatim (as the
substring between an explicit prefix and suffix), and it is determined by
the current step and the user query alone — two contexts agreeing on those
two fields receive byte-identical prompt strings, whatever their histories,
scratch data or tool calls.  (The embedding is a pure function, so the same
context trivially always yields the same string.) -/
theorem claim_C9_prompt_contract (c c' : WorkflowContext)
    (hstep : c.current_step = c'.current_step) (hq : c.user_query = c'.user_query) :
    get_current_step_prompt (some c) ≠ "" ∧
    (∃ s t, get_current_step_prompt (some c) = s ++ c.user_query ++ t) ∧
    get_current_step_prompt (some c) = get_current_step_prompt (some c') := by
  obtain ⟨q, step, hist, sd, tcs⟩ := c
  obtain ⟨q2, step2, hist2, sd2, tcs2⟩ := c'
  replace hstep : step = step2 := hstep
  replace hq : q = q2 := hq
  subst hstep
  subst hq
  cases step with
  | BUILD_QUERY => exact ⟨build_prompt_ne q, build_prompt_decomp q, rfl⟩
  | VALIDATE_QUERY => exact ⟨validate_prompt_ne q, validate_prompt_decomp q, rfl⟩
  | EXECUTE_QUERY => exact ⟨execute_prompt_ne q, execute_prompt_decomp q, rfl⟩
  | VERIFY_RESULTS => exact ⟨verify_prompt_ne q, verify_prompt_decomp q, rfl⟩
  | FORMAT_RESULTS => exact ⟨format_prompt_ne q, format_prompt_decomp q, rfl⟩

/-- An `EXECUTE_QUERY` context with no history. -/
def c9_witness_a : WorkflowContext :=
  { user_query := "How many work orders closed in 2025-09?",
    current_step := .EXECUTE_QUERY, step_history := [], shared_data := [],
    tool_calls := [] }

/-- An `EXECUTE_QUERY` context with the same query but different history,
scratch data and tool calls. -/
def c9_witness_b : WorkflowContext :=
  { user_query := "How many work orders closed in 2025-09?",
    current_step := .EXECUTE_QUERY, step_history := [.BUILD_QUERY, .VALIDATE_QUERY],
    shared_data := [("note", "x")],
    tool_calls := [{ name := "read_data", step := "build_query", data := [] }] }

/-- C9 witness: the prompt contract evaluated on two concrete contexts that
agree only on step and query. -/
theorem claim_C9_witness :
    get_current_step_prompt (some c9_witness_a) ≠ "" ∧
    get_current_step_prompt (some c9_witness_a) =
      get_current_step_prompt (some c9_witness_b) :=
  ⟨(claim_C9_prompt_contract c9_witness_a c9_witness_b rfl rfl).1,
   (claim_C9_prompt_contract c9_witness_a c9_witness_b rfl rfl).2.2⟩

end DataAnalyst
